import Mathlib

/-!
Shallow embedding of `src/backend/main.py` (the Slicr backend): a FastAPI
app with a permissive CORS middleware and a single route `POST /slice`
whose handler `slice_stl` reads the uploaded file and answers with its
filename, its byte count and a fixed message.
-/

namespace Slicr

/-- An uploaded file as FastAPI's `UploadFile` presents it to the handler:
the filename taken from the multipart form metadata (absent when the part
carries no filename), and the raw byte content (each byte a `Nat`). -/
structure UploadFile where
  filename : Option String
  content : List Nat
deriving DecidableEq, Repr

/-- The dictionary returned by `slice_stl` on line 20 of
`src/backend/main.py`: exactly the three keys `filename`, `size_bytes`
and `message`. -/
structure SliceResponse where
  filename : Option String
  size_bytes : Nat
  message : String
deriving DecidableEq, Repr

/-- Embedding of the handler body (lines 16-20 of `src/backend/main.py`):

```
contents = await file.read()
size = len(contents)
return {"filename": file.filename, "size_bytes": size, "message": "Stub slice done."}
```

`file.read()` yields the file's byte content; the handler is embedded over
an arbitrary server-state type `σ` passed explicitly, since its body
mentions no state outside the request. -/
def slice_stl (σ : Type) (file : UploadFile) (s : σ) : SliceResponse × σ :=
  let contents := file.content
  let size := contents.length
  ({ filename := file.filename, size_bytes := size, message := "Stub slice done." }, s)

/-- CORS middleware configuration fields, as passed to
`app.add_middleware(CORSMiddleware, ...)`. -/
structure CORSConfig where
  allow_origins : List String
  allow_credentials : Bool
  allow_methods : List String
  allow_headers : List String
deriving DecidableEq, Repr

/-- The configuration on lines 7-13 of `src/backend/main.py`. -/
def corsConfig : CORSConfig :=
  { allow_origins := ["*"]
  , allow_credentials := true
  , allow_methods := ["*"]
  , allow_headers := ["*"] }

/-- HTTP request methods. -/
inductive HttpMethod
  | GET | POST | PUT | DELETE | PATCH | OPTIONS | HEAD
deriving DecidableEq, Repr

/-- A registered route: method and path. -/
structure Route where
  method : HttpMethod
  path : String
deriving DecidableEq, Repr

/-- The route table of the app: the decorator `@app.post("/slice")` on
line 15 is the only route registration in `src/backend/main.py`. -/
def appRoutes : List Route := [{ method := HttpMethod.POST, path := "/slice" }]

/-- A value carried by one part of a multipart form body: either a file
part or a plain text field. -/
inductive FormValue
  | fileVal (f : UploadFile)
  | textVal (s : String)
deriving DecidableEq, Repr

/-- An incoming HTTP request, as far as this app inspects it: method,
path, and the parts of the multipart form body (name, value). -/
structure Request where
  method : HttpMethod
  path : String
  form : List (String × FormValue)
deriving DecidableEq, Repr

/-- FastAPI's request-validation layer binding the parameter
`file: UploadFile = File(...)`: the first form part named `"file"` must be
a file part; otherwise validation fails and the handler is not entered. -/
def lookupFile : List (String × FormValue) → Option UploadFile
  | [] => none
  | (name, v) :: rest =>
    if name = "file" then
      match v with
      | FormValue.fileVal f => some f
      | FormValue.textVal _ => none
    else lookupFile rest

/-- Outcome of dispatching a request to the `/slice` route: either the
handler's response with a success status, or the framework's
client-error response (HTTP 422) from the validation layer. -/
inductive HandlerResult
  | ok (status : Nat) (body : SliceResponse)
  | clientError (status : Nat)
deriving DecidableEq, Repr

/-- Dispatch of a request that reached the `/slice` route, over an
arbitrary server-state type `σ`: FastAPI validates the `file` parameter;
on success the handler `slice_stl` runs, otherwise the framework answers
422 Unprocessable Entity and the handler body is never entered. -/
def handle_slice (σ : Type) (req : Request) (s : σ) : HandlerResult × σ :=
  match lookupFile req.form with
  | some f =>
    let rs := slice_stl σ f s
    (HandlerResult.ok 200 rs.1, rs.2)
  | none => (HandlerResult.clientError 422, s)

/-- App-level routing: `src/backend/main.py` registers only
`POST /slice`, so a request is handled by this code exactly when its
method is POST and its path is `/slice`; any other request matches no
route of this app. -/
def app_dispatch (σ : Type) (req : Request) (s : σ) : Option (HandlerResult × σ) :=
  if req.method = HttpMethod.POST ∧ req.path = "/slice" then
    some (handle_slice σ req s)
  else
    none

/-- C1: for every uploaded file whose byte content has length N (including
N = 0), the `size_bytes` field of the handler's response equals N exactly:
the length of the byte buffer read from the upload. -/
theorem C1_size_bytes_eq_length (σ : Type) (file : UploadFile) (s : σ) :
    (slice_stl σ file s).1.size_bytes = file.content.length := rfl

/-- C2: the `filename` field of the handler's response equals the filename
supplied in the upload's form metadata byte-for-byte, including empty or
unusual names, and is independent of the file's byte content. -/
theorem C2_filename_echoed (σ : Type) (name : String) (c : List Nat) (s : σ) :
    (slice_stl σ { filename := some name, content := c } s).1.filename = some name ∧
    ∀ (c' : List Nat),
      (slice_stl σ { filename := some name, content := c } s).1.filename =
      (slice_stl σ { filename := some name, content := c' } s).1.filename :=
  ⟨rfl, fun _ => rfl⟩

/-- C3: for every upload, regardless of its filename and byte content, the
`message` field of the handler's response is the literal string
"Stub slice done.". -/
theorem C3_message_constant (σ : Type) (file : UploadFile) (s : σ) :
    (slice_stl σ file s).1.message = "Stub slice done." := rfl

/-- C4: for every upload, the handler's response body is a structured
object with exactly the three fields `filename`, `size_bytes` and
`message` (the whole `SliceResponse` is determined by those three
projections), returned with the success status 200. -/
theorem C4_response_shape (σ : Type) (f : UploadFile) (s : σ) :
    handle_slice σ { method := HttpMethod.POST, path := "/slice",
                     form := [("file", FormValue.fileVal f)] } s =
      (HandlerResult.ok 200
        { filename := f.filename
        , size_bytes := f.content.length
        , message := "Stub slice done." }, s) ∧
    ∀ (r : SliceResponse),
      r = { filename := r.filename, size_bytes := r.size_bytes, message := r.message } :=
  ⟨rfl, fun _ => rfl⟩

/-- C5: a POST request to `/slice` whose multipart form contains no file
part yields the client-error response 422 produced by the framework's
validation layer, never a success response, and the handler body is not
entered. -/
theorem C5_missing_file_client_error (σ : Type) (req : Request) (s : σ)
    (h : lookupFile req.form = none) :
    handle_slice σ req s = (HandlerResult.clientError 422, s) ∧
    ∀ (st : Nat) (b : SliceResponse) (s' : σ),
      handle_slice σ req s ≠ (HandlerResult.ok st b, s') := by
  constructor
  · unfold handle_slice
    rw [h]
  · intro st b s' hcontra
    unfold handle_slice at hcontra
    rw [h] at hcontra
    exact HandlerResult.noConfusion (congrArg Prod.fst hcontra)

/-- Witness for C5: the concrete POST request to `/slice` whose form is
empty satisfies the hypothesis and yields the 422 client error. -/
theorem C5_missing_file_client_error_witness :
    handle_slice Unit { method := HttpMethod.POST, path := "/slice", form := [] } () =
      (HandlerResult.clientError 422, ()) :=
  (C5_missing_file_client_error Unit
    { method := HttpMethod.POST, path := "/slice", form := [] } () rfl).1

/-- C6: the service exposes exactly one HTTP route, `POST /slice`; a
request is dispatched by this app exactly when its method is POST and its
path is `/slice`, and no other route or method is handled. -/
theorem C6_single_route :
    appRoutes = [{ method := HttpMethod.POST, path := "/slice" }] ∧
    ∀ (σ : Type) (req : Request) (s : σ),
      (app_dispatch σ req s).isSome ↔
        (req.method = HttpMethod.POST ∧ req.path = "/slice") := by
  refine ⟨rfl, fun σ req s => ?_⟩
  unfold app_dispatch
  by_cases h : req.method = HttpMethod.POST ∧ req.path = "/slice"
  · simp [h]
  · simp [h]

/-- C7: the CORS middleware is configured with wildcard origins, methods
and headers together with `allow_credentials = true`. -/
theorem C7_cors_permissive :
    corsConfig.allow_origins = ["*"] ∧
    corsConfig.allow_credentials = true ∧
    corsConfig.allow_methods = ["*"] ∧
    corsConfig.allow_headers = ["*"] :=
  ⟨rfl, rfl, rfl, rfl⟩

/-- C8: handling a request leaves every state outside the single request
unchanged: over any server-state type, both the handler and the full
dispatch return the incoming state untouched. -/
theorem C8_no_side_effects (σ : Type) (file : UploadFile) (req : Request) (s : σ) :
    (slice_stl σ file s).2 = s ∧ (handle_slice σ req s).2 = s := by
  refine ⟨rfl, ?_⟩
  unfold handle_slice
  cases h : lookupFile req.form <;> simp [slice_stl]

/-- C9: when the multipart file part carries no filename metadata, the
handler still succeeds with status 200 and the response's `filename`
field is `none`, rather than an empty string or an error. -/
theorem C9_missing_filename_is_none (σ : Type) (c : List Nat) (s : σ) :
    (slice_stl σ { filename := none, content := c } s).1.filename = none ∧
    handle_slice σ { method := HttpMethod.POST, path := "/slice",
                     form := [("file", FormValue.fileVal { filename := none, content := c })] } s =
      (HandlerResult.ok 200
        { filename := none, size_bytes := c.length, message := "Stub slice done." }, s) :=
  ⟨rfl, rfl⟩

/-- C10: the handler is deterministic: two uploads carrying the same
filename metadata and the same byte content produce identical responses,
whatever the surrounding server state; the response depends on nothing
but the uploaded filename and bytes. -/
theorem C10_deterministic (σ₁ σ₂ : Type) (f₁ f₂ : UploadFile) (s₁ : σ₁) (s₂ : σ₂)
    (hname : f₁.filename = f₂.filename) (hcontent : f₁.content = f₂.content) :
    (slice_stl σ₁ f₁ s₁).1 = (slice_stl σ₂ f₂ s₂).1 := by
  simp [slice_stl, hname, hcontent]

/-- Witness for C10: two uploads named `a.stl` with the same five bytes,
held in different server states, yield the same response. -/
theorem C10_deterministic_witness :
    (slice_stl Unit { filename := some "a.stl", content := [0, 1, 2, 3, 4] } ()).1 =
    (slice_stl Nat { filename := some "a.stl", content := [0, 1, 2, 3, 4] } 7).1 :=
  C10_deterministic Unit Nat
    { filename := some "a.stl", content := [0, 1, 2, 3, 4] }
    { filename := some "a.stl", content := [0, 1, 2, 3, 4] }
    () 7 rfl rfl

end Slicr
